import Mathlib

/-!
Shallow embedding of the audio-summarizer caching pipeline
(src/audiosummary/audiosource.py, src/audiosummary/transcribe.py,
src/audiosummary/summarize.py, src/get-text.py, src/get-summary.py).

The filesystem is modelled as an association list of (path, content) pairs
plus a list of created directories.  External collaborators (remote fetch,
yt-dlp extraction, whisper, the OpenAI client) are parameters, as is the
md5 hash (`hashlib.md5(...).hexdigest()`), which the key-derivation
theorems assume injective where collision resistance is relied upon.
Python `str(int)` is modelled by an executable decimal renderer.
-/

/-- `os.path.join a b` for the shapes used by the repository
(no trailing slash on `a`, relative `b`). -/
def pathJoin (a b : String) : String := a ++ "/" ++ b

/-- Local filesystem: file contents plus directories created with
`os.makedirs`. -/
structure FSys where
  files : List (String × String)
  dirs : List String
deriving DecidableEq, Repr

/-- Content of the file at `p`, if present (`open(p).read()`). -/
def fsLookup (fs : FSys) (p : String) : Option String := fs.files.lookup p

/-- Replace the content of the file at `p` (latest write shadows). -/
def fsWrite (fs : FSys) (p c : String) : FSys :=
  { fs with files := (p, c) :: fs.files }

/-- `os.path.exists p`: true for a file or a created directory. -/
def fsHasPath (fs : FSys) (p : String) : Bool :=
  (fsLookup fs p).isSome || fs.dirs.contains p

/-- `os.makedirs d` (with `exist_ok=True`). -/
def fsMakedirs (fs : FSys) (d : String) : FSys :=
  { fs with dirs := d :: fs.dirs }

/-- `open(p, "w")`: creates/truncates the file at its final path, which is
immediately visible to `os.path.exists`. -/
def openTrunc (fs : FSys) (p : String) : FSys := fsWrite fs p ""

/-- `f.write(c)` on a file previously opened at `p`. -/
def writeAppend (fs : FSys) (p c : String) : FSys :=
  fsWrite fs p (((fsLookup fs p).getD "") ++ c)

/-- A whole `open(p, "w"); f.write(c)` sequence (also `shutil.copyfile`
into `p`): create/truncate at the final path, then write the payload.
An interruption between the two steps leaves the `openTrunc` state. -/
def writeWhole (fs : FSys) (p c : String) : FSys :=
  writeAppend (openTrunc fs p) p c

/-- Decimal digit characters for Python `str(int)`. -/
def digitChar (d : Nat) : Char :=
  ['0', '1', '2', '3', '4', '5', '6', '7', '8', '9'].getD d '*'

/-- Numeric value of a decimal digit character. -/
def digitVal (c : Char) : Nat := c.toNat - 48

/-- Digit list of `n` in base 10, most significant first; `fuel`
bounds the recursion (any `fuel > n` is enough). -/
def natToStrAux : Nat → Nat → List Char
  | 0, _ => []
  | fuel + 1, n =>
    if n < 10 then [digitChar n]
    else natToStrAux fuel (n / 10) ++ [digitChar (n % 10)]

/-- Python `str` of a nonnegative integer. -/
def natToStr (n : Nat) : String := String.mk (natToStrAux (n + 1) n)

/-- Python `str(int)`, signs included. -/
def intToStr : Int → String
  | Int.ofNat n => natToStr n
  | Int.negSucc n => "-" ++ natToStr (n + 1)

/-- Decode a digit list back to the number it denotes. -/
def listDecode (l : List Char) : Nat :=
  l.foldl (fun a c => a * 10 + digitVal c) 0

theorem digitVal_digitChar {d : Nat} (h : d < 10) :
    digitVal (digitChar d) = d := by
  interval_cases d <;> rfl

theorem digitChar_ne_dash (d : Nat) : digitChar d ≠ '-' := by
  rcases Nat.lt_or_ge d 10 with h | h
  · interval_cases d <;> decide
  · unfold digitChar
    rw [List.getD_eq_default]
    · decide
    · simpa using h

theorem listDecode_append_single (l : List Char) (c : Char) :
    listDecode (l ++ [c]) = listDecode l * 10 + digitVal c := by
  simp [listDecode, List.foldl_append]

theorem listDecode_natToStrAux :
    ∀ fuel n, n < fuel → listDecode (natToStrAux fuel n) = n := by
  intro fuel
  induction fuel with
  | zero => intro n h; omega
  | succ f ih =>
    intro n h
    by_cases h10 : n < 10
    · simp [natToStrAux, h10, listDecode, digitVal_digitChar h10]
    · have hpos : 0 < n := by omega
      have hdiv : n / 10 < n := Nat.div_lt_self hpos (by omega)
      have hdivf : n / 10 < f := by omega
      have hmod : n % 10 < 10 := Nat.mod_lt _ (by omega)
      simp only [natToStrAux, if_neg h10, listDecode_append_single,
        ih (n / 10) hdivf, digitVal_digitChar hmod]
      omega

theorem string_data_inj {a b : String} (h : a.data = b.data) : a = b := by
  cases a; cases b; exact congrArg String.mk h

theorem natToStr_injective : Function.Injective natToStr := by
  intro a b h
  have hd : natToStrAux (a + 1) a = natToStrAux (b + 1) b :=
    congrArg String.data h
  have ha := listDecode_natToStrAux (a + 1) a (Nat.lt_succ_self a)
  have hb := listDecode_natToStrAux (b + 1) b (Nat.lt_succ_self b)
  rw [hd, hb] at ha
  omega

theorem natToStrAux_ne_nil (fuel n : Nat) (h : 0 < fuel) :
    natToStrAux fuel n ≠ [] := by
  cases fuel with
  | zero => omega
  | succ f =>
    by_cases h10 : n < 10 <;> simp [natToStrAux, h10]

theorem natToStrAux_no_dash :
    ∀ fuel n c, c ∈ natToStrAux fuel n → c ≠ '-' := by
  intro fuel
  induction fuel with
  | zero => intro n c hc; simp [natToStrAux] at hc
  | succ f ih =>
    intro n c hc
    by_cases h10 : n < 10
    · simp [natToStrAux, h10] at hc
      rw [hc]; exact digitChar_ne_dash n
    · simp only [natToStrAux, if_neg h10, List.mem_append,
        List.mem_singleton] at hc
      rcases hc with hc | hc
      · exact ih (n / 10) c hc
      · rw [hc]; exact digitChar_ne_dash (n % 10)

theorem my_string_append (a b : String) : (a ++ b).data = a.data ++ b.data := rfl

theorem natToStr_data_ne_dash_cons (m : Nat) (l : List Char) :
    (natToStr m).data ≠ '-' :: l := by
  intro h
  have hdata : (natToStr m).data = natToStrAux (m + 1) m := rfl
  rw [hdata] at h
  have hcm : '-' ∈ natToStrAux (m + 1) m := by
    rw [h]; exact List.mem_cons_self _ l
  exact natToStrAux_no_dash (m + 1) m '-' hcm rfl

theorem intToStr_injective : Function.Injective intToStr := by
  intro a b h
  cases a with
  | ofNat m =>
    cases b with
    | ofNat n =>
      exact congrArg Int.ofNat (natToStr_injective h)
    | negSucc n =>
      exfalso
      have hd : (natToStr m).data = ('-' :: (natToStr (n + 1)).data) :=
        congrArg String.data h
      exact natToStr_data_ne_dash_cons m _ hd
  | negSucc n =>
    cases b with
    | ofNat m =>
      exfalso
      have hd : (natToStr m).data = ('-' :: (natToStr (n + 1)).data) :=
        congrArg String.data h.symm
      exact natToStr_data_ne_dash_cons m _ hd
    | negSucc m =>
      have hd : ('-' :: (natToStr (n + 1)).data) = ('-' :: (natToStr (m + 1)).data) :=
        congrArg String.data h
      have heq : natToStr (n + 1) = natToStr (m + 1) := by
        apply string_data_inj
        injection hd
      have := natToStr_injective heq
      exact congrArg Int.negSucc (by omega)

/-- Value of a decimal digit character, none otherwise. -/
def chDigit (c : Char) : Option Nat :=
  if 48 ≤ c.toNat && c.toNat ≤ 57 then some (c.toNat - 48) else none

/-- Python `int` on a digit string (no sign). -/
def parseNatData (l : List Char) : Option Nat :=
  if l = [] then none
  else
    l.foldl (fun acc c =>
      match acc, chDigit c with
      | some a, some d => some (a * 10 + d)
      | _, _ => none) (some 0)

/-- Python `int` on a decimal string, minus sign included; none models
the ValueError on a malformed string. -/
def parseIntData : List Char → Option Int
  | '-' :: rest => (parseNatData rest).map (fun n => -(n : Int))
  | l => (parseNatData l).map (fun n => (n : Int))

/-- Python `int(s)` (whitespace/underscore/plus forms are not used by the
repository's inputs). -/
def myToInt (s : String) : Option Int := parseIntData s.data

/-- Split a character list on a separator character; always returns at
least one (possibly empty) part. -/
def splitChar (sep : Char) : List Char → List (List Char)
  | [] => [[]]
  | c :: rest =>
    match splitChar sep rest with
    | [] => [[]]
    | h :: t => if c = sep then [] :: h :: t else (c :: h) :: t

/-- Python `s.split(sep)` for a one-character separator. -/
def mySplit (s : String) (sep : Char) : List String :=
  (splitChar sep s.data).map String.mk

/-- Python `s.startswith(pat)`. -/
def myStartsWith (s pat : String) : Bool := List.isPrefixOf pat.data s.data

/-- Python `s.endswith(pat)`. -/
def myEndsWith (s pat : String) : Bool := List.isSuffixOf pat.data s.data

/-- Does `pat` occur as a contiguous sublist of `l`? -/
def dataContains (pat : List Char) : List Char → Bool
  | [] => List.isPrefixOf pat []
  | c :: rest => List.isPrefixOf pat (c :: rest) || dataContains pat rest

/-- Python `pat in s`. -/
def containsSub (s pat : String) : Bool := dataContains pat.data s.data

/-- Replace non-overlapping occurrences of `pat` left to right; `fuel`
bounds the recursion (the scanned list's length is enough). -/
def replaceAux : Nat → List Char → List Char → List Char → List Char
  | 0, l, _, _ => l
  | fuel + 1, l, pat, rep =>
    match l with
    | [] => []
    | c :: rest =>
      if List.isPrefixOf pat l then rep ++ replaceAux fuel (l.drop pat.length) pat rep
      else c :: replaceAux fuel rest pat rep

/-- Python `s.replace(pat, rep)` (also `str.format` substitution of a
single named field) for nonempty `pat`. -/
def myReplace (s pat rep : String) : String :=
  String.mk (replaceAux s.data.length s.data pat.data rep.data)

/-- Events observable during a pipeline run: acquisition cache accesses,
collaborator invocations (network fetch, yt-dlp extraction, local copy),
transcription cache accesses, whisper invocation, summarization and
summary cache accesses, and final output. -/
inductive PEvent
  | aqCacheCheck
  | aqCacheRead
  | download (url : String)
  | ytExtract (url : String)
  | copyLocal (path : String)
  | aqCacheWrite
  | trCacheRead
  | trCacheWrite
  | modelInvoke
  | summarizeCall
  | sumCacheRead
  | sumCacheWrite
  | output
deriving DecidableEq, Repr

/-- Exceptions raised by the embedded code, named after the Python
exceptions / the spec's taxonomy: `invalidInput` is audiosource.py:42's
ValueError, `ambiguousExtraction` is the AssertionError of
audiosource.py:122, `rangeError` is transcribe.py:190's ValueError,
`valueError` is an int() parse failure, `nameError` is an unbound local
variable (NameError), `notOpen` is the RuntimeError of transcribe.py:185. -/
inductive Err
  | invalidInput
  | downloadFailure
  | ambiguousExtraction (n : Nat)
  | notOpen
  | valueError
  | rangeError
  | nameError (v : String)
  | fileNotFound
  | missingApiKey
deriving DecidableEq, Repr

/-- External collaborators (spec section 6), out of scope of the core:
`net url` is the byte string `urllib.request.urlretrieve` would fetch
(none on transport failure), `yt url` the (filename, content) pairs
yt-dlp leaves in the temporary directory, `whisper path offset duration`
the text of the transcription engine, and `gpt prompt model maxTokens
temperature` the generated summary. -/
structure Collab where
  net : String → Option String
  yt : String → List (String × String)
  whisper : String → Option Int → Option Int → String
  gpt : String → String → Nat → String → String

/-- Python truthiness of an optional string: None and "" are falsy. -/
def pyTruthy : Option String → Bool
  | none => false
  | some s => s ≠ ""

/-- Python `str` applied to an optional string: `str(None) = "None"`. -/
def pyStr : Option String → String
  | none => "None"
  | some s => s

/-- `AudioSource._url_hash` (audiosource.py:138-141):
`hashlib.md5(url.encode("utf-8")).hexdigest()`, with the hash function
taken as a parameter of the embedding. -/
def url_hash (md5 : String → String) (url : String) : String := md5 url

/-- `AudioSource._is_url` (audiosource.py:83-86): the urlparse scheme is
http or https. -/
def is_url (url : String) : Bool :=
  match mySplit url ':' with
  | a :: _ :: _ => a == "http" || a == "https"
  | _ => false

/-- `AudioSource._is_youtube_video` (audiosource.py:88-91): the anchored
regex `https?://(www\.)?youtube\.com/watch\?v=.*`. -/
def is_youtube (url : String) : Bool :=
  myStartsWith url "https://www.youtube.com/watch?v=" ||
  myStartsWith url "http://www.youtube.com/watch?v=" ||
  myStartsWith url "https://youtube.com/watch?v=" ||
  myStartsWith url "http://youtube.com/watch?v="

/-- The state of `AudioSource` (audiosource.py:24-31): the input url or
path, the per-input cache directory (already joined with the url hash;
none when caching is disabled), the open temporary/cached file's name,
and the open flag. -/
structure AudioSource where
  url : String
  cache_dir : Option String
  tmpname : Option String
  is_open : Bool
deriving DecidableEq, Repr

/-- `AudioSource.__init__` (audiosource.py:26-31):
`cache_dir = os.path.join(cache_dir, self._url_hash(url)) if cache_dir
else None`. -/
def AudioSource.init (md5 : String → String) (url : String)
    (cache_dir : Option String) : AudioSource :=
  { url := url
    cache_dir :=
      if pyTruthy cache_dir then
        some (pathJoin (cache_dir.getD "") (url_hash md5 url))
      else none
    tmpname := none
    is_open := false }

/-- `AudioSource.download` (audiosource.py:33-42): dispatch on the input
kind; the youtube branch is `_download_youtube_video`
(audiosource.py:93-125) after yt-dlp ran: keep the `.mp3` files of the
temporary directory, assert there is exactly one, and move it to `dest`;
the plain-url branch is `_download_audio_file` (urlretrieve into `dest`);
the local branch is `_copy_audio_file` (copyfile into `dest`); otherwise
`ValueError("Invalid url or file path.")`. -/
def AudioSource.download (C : Collab) (src : AudioSource) (fs : FSys)
    (dest : String) : List PEvent × Except Err FSys :=
  if is_url src.url then
    if is_youtube src.url then
      let mp3s := (C.yt src.url).filter (fun f => myEndsWith f.1 ".mp3")
      if mp3s.length = 1 then
        ([PEvent.ytExtract src.url],
         Except.ok (fsWrite fs dest (mp3s.headD ("", "")).2))
      else
        ([PEvent.ytExtract src.url],
         Except.error (Err.ambiguousExtraction mp3s.length))
    else
      match C.net src.url with
      | some bytes => ([PEvent.download src.url], Except.ok (fsWrite fs dest bytes))
      | none => ([PEvent.download src.url], Except.error Err.downloadFailure)
  else if (fsLookup fs src.url).isSome then
    ([PEvent.copyLocal src.url],
     Except.ok (fsWrite fs dest ((fsLookup fs src.url).getD "")))
  else
    ([], Except.error Err.invalidInput)

/-- `AudioSource._save_to_cache` (audiosource.py:78-81): when open, with a
temp file and a cache directory, `os.makedirs(cache_dir, exist_ok=True)`
then `copyfile(tmpfile.name, cache_dir/audio.mp3)` — a direct write at
the final cache path, modelled as create-then-write (`writeWhole`). -/
def AudioSource.save_to_cache (src : AudioSource) (fs : FSys) : FSys :=
  match src.cache_dir, src.tmpname with
  | some cd, some t =>
    if src.is_open then
      writeWhole (fsMakedirs fs cd) (pathJoin cd "audio.mp3")
        ((fsLookup fs t).getD "")
    else fs
  | _, _ => fs

/-- The cache-miss path of `AudioSource.__enter__` (audiosource.py:58-64):
create the named temporary file (`delete=False`), download into it, then
save it to the cache. `tmp` is the fresh temporary file name. -/
def AudioSource.enterMiss (C : Collab) (src : AudioSource) (fs : FSys)
    (tmp : String) : List PEvent × Except Err (AudioSource × FSys) :=
  let fs1 := fsWrite fs tmp ""
  match AudioSource.download C src fs1 tmp with
  | (ev, Except.error e) => (ev, Except.error e)
  | (ev, Except.ok fs2) =>
    let src2 := { src with tmpname := some tmp }
    match src.cache_dir with
    | some _ =>
      (ev ++ [PEvent.aqCacheWrite], Except.ok (src2, AudioSource.save_to_cache src2 fs2))
    | none => (ev, Except.ok (src2, fs2))

/-- `AudioSource.__enter__` (audiosource.py:52-66): `_is_cached`
(audiosource.py:73-76) checks `cache_dir and os.path.exists(cache_dir/
audio.mp3)`; on a hit the cached file itself is opened (its name becomes
the artifact path), else the miss path downloads and caches. -/
def AudioSource.enter (C : Collab) (src0 : AudioSource) (fs : FSys)
    (tmp : String) : List PEvent × Except Err (AudioSource × FSys) :=
  let src := { src0 with is_open := true }
  match src.cache_dir with
  | some cd =>
    if (fsLookup fs (pathJoin cd "audio.mp3")).isSome then
      ([PEvent.aqCacheCheck, PEvent.aqCacheRead],
       Except.ok ({ src with tmpname := some (pathJoin cd "audio.mp3") }, fs))
    else
      let r := AudioSource.enterMiss C src fs tmp
      (PEvent.aqCacheCheck :: r.1, r.2)
  | none => AudioSource.enterMiss C src fs tmp

/-- `AudioSource.__exit__` (audiosource.py:68-71): close the file and
reset the fields; the filesystem is untouched (the temporary file was
created with `delete=False` and is never unlinked). -/
def AudioSource.exitAS (src : AudioSource) (fs : FSys) : AudioSource × FSys :=
  ({ src with tmpname := none, is_open := false }, fs)

/-- `AudioSource.get_audio_path` (audiosource.py:44-50): the open file's
name; none models the RuntimeError when not open. -/
def AudioSource.get_audio_path (src : AudioSource) : Option String :=
  if src.is_open then src.tmpname else none

/-- `timestamp_to_millis` (transcribe.py:19-28): split on ":", reverse,
and sum `int(part) * 60**i * 1000`; none models int() raising ValueError. -/
def timestamp_to_millis (t : String) : Option Int :=
  let parts := (mySplit t ':').reverse
  (parts.mapM myToInt).map (fun xs =>
    xs.enum.foldl (fun acc p => acc + p.2 * (60 ^ p.1 : Int) * 1000) 0)

/-- `os.path.basename` for the slash-separated paths the repository uses. -/
def basename (p : String) : String := (mySplit p '/').getLastD ""

/-- `os.path.basename(model_path).split(".")[0]` (transcribe.py:191). -/
def model_name (model_path : String) : String :=
  (mySplit (basename model_path) '.').headD ""

/-- The transcription cache entry name (transcribe.py:193):
`f"transcription-{start}-{duration}-{model_name}.txt"`. -/
def transcription_fname (start duration : Int) (model_path : String) : String :=
  "transcription-" ++ intToStr start ++ "-" ++ intToStr duration ++ "-" ++
    model_name model_path ++ ".txt"

/-- The start/duration computation and validation of `transcribe`
(transcribe.py:187-190): `start = timestamp_to_millis(range[0]) if
range[0] else 0`, `duration = timestamp_to_millis(range[1]) - start if
range[1] else 0`, and `duration < 0` raises ValueError. -/
def rangeMillis (rng : Option String × Option String) : Except Err (Int × Int) :=
  match (match rng.1 with
         | none => some (0 : Int)
         | some s => if s = "" then some 0 else timestamp_to_millis s) with
  | none => Except.error Err.valueError
  | some start =>
    match (match rng.2 with
           | none => some (0 : Int)
           | some e =>
             if e = "" then some 0
             else (timestamp_to_millis e).map (fun v => v - start)) with
    | none => Except.error Err.valueError
    | some duration =>
      if duration < 0 then Except.error Err.rangeError
      else Except.ok (start, duration)

/-- `transcribe` (transcribe.py:30-88), on the subprocess path
(`use_binding=False`, as both CLIs call it): require the source open,
validate the range, consult the per-source transcription cache, else run
whisper (passing the offset only when `range[0] is not None` and the
duration only when `range[1] is not None`, transcribe.py:75-78) and write
the result at the final cache path when the cache directory exists. -/
def transcribe (C : Collab) (audio : AudioSource) (model_path : String)
    (rng : Option String × Option String) (fs : FSys) (cache : Bool) :
    List PEvent × Except Err (FSys × String) :=
  if !audio.is_open then ([], Except.error Err.notOpen) else
  match rangeMillis rng with
  | Except.error e => ([], Except.error e)
  | Except.ok (start, duration) =>
    let fname := transcription_fname start duration model_path
    let hit := cache && (match audio.cache_dir with
      | some cd => (fsLookup fs (pathJoin cd fname)).isSome
      | none => false)
    if hit then
      ([PEvent.trCacheRead],
       Except.ok (fs, (fsLookup fs (pathJoin (audio.cache_dir.getD "") fname)).getD ""))
    else
      let offset : Option Int := if rng.1.isSome then some start else none
      let dur : Option Int := if rng.2.isSome then some duration else none
      let transcription := C.whisper (audio.get_audio_path.getD "") offset dur
      match audio.cache_dir with
      | some cd =>
        if cache && fsHasPath fs cd then
          ([PEvent.modelInvoke, PEvent.trCacheWrite],
           Except.ok (writeWhole fs (pathJoin cd fname) transcription, transcription))
        else ([PEvent.modelInvoke], Except.ok (fs, transcription))
      | none => ([PEvent.modelInvoke], Except.ok (fs, transcription))

/-- `main` of get-text.py (get-text.py:28-43): enter the AudioSource,
transcribe with `cache=bool(args.cache_dir)`, and output the text. -/
def getTextMain (md5 : String → String) (C : Collab) (input cacheDir modelPath : String)
    (startArg endArg : Option String) (fs : FSys) (tmp : String) :
    List PEvent × Except Err (FSys × String) :=
  let src0 := AudioSource.init md5 input (some cacheDir)
  match AudioSource.enter C src0 fs tmp with
  | (ev, Except.error e) => (ev, Except.error e)
  | (ev, Except.ok (src, fs1)) =>
    match transcribe C src modelPath (startArg, endArg) fs1 (cacheDir ≠ "") with
    | (ev2, Except.error e) => (ev ++ ev2, Except.error e)
    | (ev2, Except.ok (fs2, text)) =>
      (ev ++ ev2 ++ [PEvent.output], Except.ok (fs2, text))

/-- The argparse arguments of get-summary.py (get-summary.py:20-38) that
the pipeline logic reads. -/
structure SumArgs where
  input : String
  model_path : String
  startArg : Option String
  endArg : Option String
  openai_api_key : Option String
  prompt : String
  max_tokens : Nat
  temperature : String
  cache_dir : String
  openai_model : String
deriving DecidableEq, Repr

/-- The string hashed for the summary cache (get-summary.py:75):
`args.input + args.model_path + prompt + str(args.start) + str(args.end)`
with `prompt` already resolved and text-substituted. -/
def summary_to_hash (input model_path prompt : String)
    (startArg endArg : Option String) : String :=
  input ++ model_path ++ prompt ++ pyStr startArg ++ pyStr endArg

/-- The summary cache file name (get-summary.py:76):
`"summary-" + md5(to_hash).hexdigest() + ".txt"`. -/
def summary_hash_file (md5 : String → String) (a : SumArgs)
    (resolvedPrompt : String) : String :=
  "summary-" ++
    md5 (summary_to_hash a.input a.model_path resolvedPrompt a.startArg a.endArg) ++
    ".txt"

/-- The tail of get-summary.py's `main` shared by both input kinds
(get-summary.py:86-96): build the summarizer (`OpenAISummarizer.
init_api_key`, summarize.py:169-173, raising when neither the argument
nor the environment provides a key), call the summarization collaborator,
then — when `args.cache_dir` is truthy and exists — write the summary at
`hash_path`; on the text-file input path that local variable was never
assigned, which Python raises as a NameError (`hashPath = none` here). -/
def summaryTail (C : Collab) (envKey : Option String) (a : SumArgs)
    (prompt1 : String) (hashPath : Option String) (evs : List PEvent)
    (fs : FSys) : List PEvent × Except Err (FSys × String) :=
  let key := if pyTruthy a.openai_api_key then a.openai_api_key else envKey
  if pyTruthy key then
    let summary := C.gpt prompt1 a.openai_model a.max_tokens a.temperature
    if a.cache_dir ≠ "" && fsHasPath fs a.cache_dir then
      match hashPath with
      | none =>
        (evs ++ [PEvent.summarizeCall], Except.error (Err.nameError "hash_path"))
      | some hp =>
        (evs ++ [PEvent.summarizeCall, PEvent.sumCacheWrite, PEvent.output],
         Except.ok (writeWhole fs hp summary, summary))
    else
      (evs ++ [PEvent.summarizeCall, PEvent.output], Except.ok (fs, summary))
  else (evs, Except.error Err.missingApiKey)

/-- `main` of get-summary.py (get-summary.py:41-96): resolve the prompt
(file content when a file of that name exists, get-summary.py:51-54); on
a `.txt` input read the text and substitute it into the prompt
(get-summary.py:57-63) — assigning no `hash_path`; otherwise acquire,
transcribe, substitute, and return the cached summary when `hash_path`
exists (get-summary.py:65-84); finally run the shared summarization tail. -/
def getSummaryMain (md5 : String → String) (C : Collab) (envKey : Option String)
    (a : SumArgs) (fs : FSys) (tmp : String) :
    List PEvent × Except Err (FSys × String) :=
  let prompt0 := match fsLookup fs a.prompt with
    | some c => c
    | none => a.prompt
  if myEndsWith a.input ".txt" then
    match fsLookup fs a.input with
    | none => ([], Except.error Err.fileNotFound)
    | some text =>
      let prompt1 :=
        if containsSub prompt0 "{text}" then myReplace prompt0 "{text}" text
        else prompt0 ++ text
      summaryTail C envKey a prompt1 none [] fs
  else
    let src0 := AudioSource.init md5 a.input (some a.cache_dir)
    match AudioSource.enter C src0 fs tmp with
    | (ev, Except.error e) => (ev, Except.error e)
    | (ev, Except.ok (src, fs1)) =>
      match transcribe C src a.model_path (a.startArg, a.endArg) fs1
          (a.cache_dir ≠ "") with
      | (ev2, Except.error e) => (ev ++ ev2, Except.error e)
      | (ev2, Except.ok (fs2, text)) =>
        let prompt1 :=
          if containsSub prompt0 "{text}" then myReplace prompt0 "{text}" text
          else prompt0 ++ text
        let hash_path := pathJoin a.cache_dir (summary_hash_file md5 a prompt1)
        if (fsLookup fs2 hash_path).isSome then
          (ev ++ ev2 ++ [PEvent.sumCacheRead, PEvent.output],
           Except.ok (fs2, (fsLookup fs2 hash_path).getD ""))
        else
          summaryTail C envKey a prompt1 (some hash_path) (ev ++ ev2) fs2

/-- Number of invocations of the expensive acquisition collaborators
(network download, yt-dlp extraction, local copy) in a trace. -/
def fetchCount (ev : List PEvent) : Nat :=
  ev.countP (fun e => match e with
    | PEvent.download _ => true
    | PEvent.ytExtract _ => true
    | PEvent.copyLocal _ => true
    | _ => false)

/-- Transcription-stage events: transcription cache accesses and the
whisper model invocation. -/
def isTrStageEvent : PEvent → Bool
  | PEvent.trCacheRead => true
  | PEvent.trCacheWrite => true
  | PEvent.modelInvoke => true
  | _ => false

/-- A concrete collaborator assignment used by witnesses. -/
def collabA : Collab :=
  { net := fun _ => some "NETBYTES"
    yt := fun _ => [("a.mp3", "YTBYTES")]
    whisper := fun _ _ _ => "TRANSCRIPT"
    gpt := fun _ _ _ _ => "SUMMARY" }

/-- A collaborator whose yt-dlp extraction leaves two audio files. -/
def collabB : Collab :=
  { net := fun _ => some "NETBYTES"
    yt := fun _ => [("a.mp3", "X"), ("b.mp3", "Y")]
    whisper := fun _ _ _ => "TRANSCRIPT"
    gpt := fun _ _ _ _ => "SUMMARY" }

/-- The empty filesystem. -/
def fs0 : FSys := { files := [], dirs := [] }

theorem strCancelLeft {A x y : String} (h : A ++ x = A ++ y) : x = y := by
  apply string_data_inj
  have hd := congrArg String.data h
  simp only [my_string_append] at hd
  exact List.append_cancel_left hd

theorem fsLookup_fsWrite_self (fs : FSys) (p c : String) :
    fsLookup (fsWrite fs p c) p = some c := by
  simp [fsLookup, fsWrite, List.lookup]

theorem fsLookup_fsWrite_ne (fs : FSys) (p q c : String) (h : q ≠ p) :
    fsLookup (fsWrite fs p c) q = fsLookup fs q := by
  have hb : (q == p) = false := beq_eq_false_iff_ne.mpr h
  simp [fsLookup, fsWrite, List.lookup, hb]

theorem fsLookup_fsMakedirs (fs : FSys) (d p : String) :
    fsLookup (fsMakedirs fs d) p = fsLookup fs p := rfl

theorem fsLookup_writeWhole_self (fs : FSys) (p c : String) :
    fsLookup (writeWhole fs p c) p = some c := by
  simp [writeWhole, writeAppend, openTrunc, fsLookup_fsWrite_self]

theorem fsLookup_writeWhole_ne (fs : FSys) (p q c : String) (h : q ≠ p) :
    fsLookup (writeWhole fs p c) q = fsLookup fs q := by
  simp [writeWhole, writeAppend, openTrunc, fsLookup_fsWrite_ne _ _ _ _ h]

/-- Claim C8: timestamp parsing maps `"90"` to 90000 ms, `"01:30"` to
90000 ms, `"01:01:30"` to 3690000 ms, and in general an SS / MM:SS /
HH:MM:SS string to 1000 times the total number of seconds it denotes. -/
theorem C8_timestamp_parsing :
    (timestamp_to_millis "90" = some 90000 ∧
     timestamp_to_millis "01:30" = some 90000 ∧
     timestamp_to_millis "01:01:30" = some 3690000) ∧
    (∀ t p1 a, mySplit t ':' = [p1] → myToInt p1 = some a →
      timestamp_to_millis t = some (1000 * a)) ∧
    (∀ t p1 p2 a b, mySplit t ':' = [p1, p2] → myToInt p1 = some a →
      myToInt p2 = some b →
      timestamp_to_millis t = some (1000 * (60 * a + b))) ∧
    (∀ t p1 p2 p3 a b c, mySplit t ':' = [p1, p2, p3] → myToInt p1 = some a →
      myToInt p2 = some b → myToInt p3 = some c →
      timestamp_to_millis t = some (1000 * (3600 * a + 60 * b + c))) := by
  refine ⟨⟨by decide, by decide, by decide⟩, ?_, ?_, ?_⟩
  · intro t p1 a hs h1
    unfold timestamp_to_millis
    rw [hs]
    simp [List.mapM.loop, h1, List.enumFrom, List.foldl]
    omega
  · intro t p1 p2 a b hs h1 h2
    unfold timestamp_to_millis
    rw [hs]
    simp [List.mapM.loop, h1, h2, List.enumFrom, List.foldl]
    omega
  · intro t p1 p2 p3 a b c hs h1 h2 h3
    unfold timestamp_to_millis
    rw [hs]
    simp [List.mapM.loop, h1, h2, h3, List.enumFrom, List.foldl]
    omega

/-- Witness for C8: the general HH:MM:SS case applied to "01:01:30". -/
theorem C8_witness :
    timestamp_to_millis "01:01:30" = some (1000 * (3600 * 1 + 60 * 1 + 30)) :=
  C8_timestamp_parsing.2.2.2 "01:01:30" "01" "01" "30" 1 1 30
    (by decide) (by decide) (by decide) (by decide)

/-- Claim C9: a video-audio extraction whose output directory holds a
number of `.mp3` files different from exactly one makes the acquisition
stage fail with the ambiguous-extraction error (the AssertionError of
audiosource.py:122, the spec's `AcquisitionError`) instead of picking a
file. -/
theorem C9_ambiguous_extraction (C : Collab) (src : AudioSource) (fs : FSys)
    (dest : String)
    (hurl : is_url src.url = true) (hyt : is_youtube src.url = true)
    (hn : ((C.yt src.url).filter (fun f => myEndsWith f.1 ".mp3")).length ≠ 1) :
    AudioSource.download C src fs dest =
      ([PEvent.ytExtract src.url],
       Except.error (Err.ambiguousExtraction
         ((C.yt src.url).filter (fun f => myEndsWith f.1 ".mp3")).length)) := by
  unfold AudioSource.download
  simp [hurl, hyt, hn]

/-- Witness for C9: a youtube extraction that yields two .mp3 files. -/
theorem C9_witness :
    AudioSource.download collabB
      { url := "https://www.youtube.com/watch?v=abc", cache_dir := none,
        tmpname := none, is_open := false } fs0 "/tmp/t0" =
      ([PEvent.ytExtract "https://www.youtube.com/watch?v=abc"],
       Except.error (Err.ambiguousExtraction 2)) := by
  have h := C9_ambiguous_extraction collabB
    { url := "https://www.youtube.com/watch?v=abc", cache_dir := none,
      tmpname := none, is_open := false } fs0 "/tmp/t0"
    (by decide) (by decide) (by decide)
  have hlen : ((collabB.yt "https://www.youtube.com/watch?v=abc").filter
      (fun f => myEndsWith f.1 ".mp3")).length = 2 := by decide
  rw [hlen] at h
  exact h

/-- Claim C2: with start "00:00:10", end "00:00:40" and whisper model
path basename small.en.bin, the transcription cache entry name is the
deterministic function of the (start-ms, duration-ms, model) triple
evaluating to "transcription-10000-30000-small.txt"; end "00:00:41"
yields the distinct triple (10000, 31000, model), a distinct entry name,
and — when that entry is absent — a fresh whisper invocation. -/
theorem C2_transcription_cache_naming :
    rangeMillis (some "00:00:10", some "00:00:40") = Except.ok (10000, 30000) ∧
    transcription_fname 10000 30000 "./models/small.en.bin" =
      "transcription-10000-30000-small.txt" ∧
    rangeMillis (some "00:00:10", some "00:00:41") = Except.ok (10000, 31000) ∧
    transcription_fname 10000 31000 "./models/small.en.bin" ≠
      transcription_fname 10000 30000 "./models/small.en.bin" ∧
    (∀ (C : Collab) (audio : AudioSource) (cd : String) (fs : FSys),
      audio.is_open = true → audio.cache_dir = some cd →
      fsLookup fs (pathJoin cd
        (transcription_fname 10000 31000 "./models/small.en.bin")) = none →
      PEvent.modelInvoke ∈
        (transcribe C audio "./models/small.en.bin"
          (some "00:00:10", some "00:00:41") fs true).1) := by
  refine ⟨rfl, by decide, rfl, by decide, ?_⟩
  intro C audio cd fs hopen hcd hmiss
  have hr : rangeMillis (some "00:00:10", some "00:00:41") =
      Except.ok (10000, 31000) := rfl
  unfold transcribe
  rw [hopen, hcd, hr]
  simp only [Bool.not_true, Bool.false_eq_true, if_false, hmiss]
  simp only [Option.isSome_none, Bool.and_false, Bool.false_eq_true, if_false]
  split <;> simp

/-- Witness for C2: the fresh-invocation part at a concrete open source. -/
theorem C2_witness :
    PEvent.modelInvoke ∈
      (transcribe collabA
        { url := "u", cache_dir := some "cache/u", tmpname := some "/tmp/t0",
          is_open := true }
        "./models/small.en.bin" (some "00:00:10", some "00:00:41") fs0 true).1 :=
  C2_transcription_cache_naming.2.2.2.2 collabA
    { url := "u", cache_dir := some "cache/u", tmpname := some "/tmp/t0",
      is_open := true }
    "cache/u" fs0 rfl rfl rfl

theorem summary_hash_file_pre (md5 : String → String)
    (hinj : Function.Injective md5) {a b : SumArgs} {pa pb : String}
    (h : summary_hash_file md5 a pa = summary_hash_file md5 b pb) :
    summary_to_hash a.input a.model_path pa a.startArg a.endArg =
      summary_to_hash b.input b.model_path pb b.startArg b.endArg := by
  unfold summary_hash_file at h
  have hd := congrArg String.data h
  simp only [my_string_append, List.append_assoc] at hd
  have h2 := List.append_cancel_left hd
  have h3 := List.append_cancel_right h2
  exact hinj (string_data_inj h3)

/-- Claim C1 counterexample: two distinct whisper model paths whose
basenames differ only after the first dot (small.en.bin vs small.fr.bin)
derive the same transcription cache entry name, and two summarization
invocations differing only in the OpenAI model derive the same summary
cache file name — so changing the model identity does not always change
the key, and a cached entry for one model can be returned for another. -/
theorem C1_counterexample :
    (("./models/small.en.bin" : String) ≠ "./models/small.fr.bin" ∧
     transcription_fname 10000 30000 "./models/small.en.bin" =
       transcription_fname 10000 30000 "./models/small.fr.bin") ∧
    (({ input := "ep.wav", model_path := "./models/small.en.bin",
          startArg := none, endArg := none, openai_api_key := some "KEY",
          prompt := "p", max_tokens := 999, temperature := "0.7",
          cache_dir := "cache", openai_model := "gpt-4-0125-preview" } :
            SumArgs).openai_model ≠
      ({ input := "ep.wav", model_path := "./models/small.en.bin",
           startArg := none, endArg := none, openai_api_key := some "KEY",
           prompt := "p", max_tokens := 999, temperature := "0.7",
           cache_dir := "cache", openai_model := "gpt-3.5-turbo" } :
             SumArgs).openai_model ∧
     summary_hash_file (fun s => s)
       { input := "ep.wav", model_path := "./models/small.en.bin",
           startArg := none, endArg := none, openai_api_key := some "KEY",
           prompt := "p", max_tokens := 999, temperature := "0.7",
           cache_dir := "cache", openai_model := "gpt-4-0125-preview" } "PROMPT" =
       summary_hash_file (fun s => s)
         { input := "ep.wav", model_path := "./models/small.en.bin",
             startArg := none, endArg := none, openai_api_key := some "KEY",
             prompt := "p", max_tokens := 999, temperature := "0.7",
             cache_dir := "cache", openai_model := "gpt-3.5-turbo" } "PROMPT") :=
  ⟨⟨by decide, by decide⟩, ⟨by decide, rfl⟩⟩

/-- Claim C1 amended: key derivation is pure (the keys are functions of
their inputs), and — assuming the md5 collaborator injective — the
acquisition key changes with the URL; the transcription entry name
changes with the normalized start, the normalized duration, and the
model-name component `basename(model_path).split(".")[0]`, but model
paths sharing that first component collide; the summary key changes with
any single change to the input, the whisper model path, the resolved
prompt, or the printed start/end strings, but it ignores the OpenAI
model, max-tokens and temperature entirely. -/
theorem C1_amended_key_derivation (md5 : String → String)
    (hinj : Function.Injective md5) :
    (∀ u v, u ≠ v → url_hash md5 u ≠ url_hash md5 v) ∧
    (∀ (s s' d : Int) (mp : String), s ≠ s' →
      transcription_fname s d mp ≠ transcription_fname s' d mp) ∧
    (∀ (s d d' : Int) (mp : String), d ≠ d' →
      transcription_fname s d mp ≠ transcription_fname s d' mp) ∧
    (∀ (s d : Int) (mp mq : String), model_name mp ≠ model_name mq →
      transcription_fname s d mp ≠ transcription_fname s d mq) ∧
    (∀ (a : SumArgs) (pr i : String), a.input ≠ i →
      summary_hash_file md5 a pr ≠ summary_hash_file md5 { a with input := i } pr) ∧
    (∀ (a : SumArgs) (pr m : String), a.model_path ≠ m →
      summary_hash_file md5 a pr ≠
        summary_hash_file md5 { a with model_path := m } pr) ∧
    (∀ (a : SumArgs) (pr pr' : String), pr ≠ pr' →
      summary_hash_file md5 a pr ≠ summary_hash_file md5 a pr') ∧
    (∀ (a : SumArgs) (pr : String) (st : Option String),
      pyStr a.startArg ≠ pyStr st →
      summary_hash_file md5 a pr ≠
        summary_hash_file md5 { a with startArg := st } pr) ∧
    (∀ (a : SumArgs) (pr : String) (en : Option String),
      pyStr a.endArg ≠ pyStr en →
      summary_hash_file md5 a pr ≠
        summary_hash_file md5 { a with endArg := en } pr) ∧
    (∀ (a : SumArgs) (pr m tp : String) (k : Nat),
      summary_hash_file md5
        { a with openai_model := m, max_tokens := k, temperature := tp } pr =
      summary_hash_file md5 a pr) := by
  refine ⟨?_, ?_, ?_, ?_, ?_, ?_, ?_, ?_, ?_, ?_⟩
  · intro u v hne he
    exact hne (hinj he)
  · intro s s' d mp hne he
    apply hne
    apply intToStr_injective
    have hd := congrArg String.data he
    simp only [transcription_fname, my_string_append, List.append_assoc] at hd
    have h2 := List.append_cancel_left hd
    exact string_data_inj (List.append_cancel_right h2)
  · intro s d d' mp hne he
    apply hne
    apply intToStr_injective
    have hd := congrArg String.data he
    simp only [transcription_fname, my_string_append, List.append_assoc] at hd
    have h2 := List.append_cancel_left (List.append_cancel_left
      (List.append_cancel_left hd))
    exact string_data_inj (List.append_cancel_right h2)
  · intro s d mp mq hne he
    apply hne
    have hd := congrArg String.data he
    simp only [transcription_fname, my_string_append, List.append_assoc] at hd
    have h2 := List.append_cancel_left (List.append_cancel_left
      (List.append_cancel_left (List.append_cancel_left
        (List.append_cancel_left hd))))
    exact string_data_inj (List.append_cancel_right h2)
  · intro a pr i hne he
    apply hne
    have h := summary_hash_file_pre md5 hinj he
    unfold summary_to_hash at h
    have hd := congrArg String.data h
    simp only [my_string_append, List.append_assoc] at hd
    exact string_data_inj (List.append_cancel_right hd)
  · intro a pr m hne he
    apply hne
    have h := summary_hash_file_pre md5 hinj he
    unfold summary_to_hash at h
    have hd := congrArg String.data h
    simp only [my_string_append, List.append_assoc] at hd
    have h2 := List.append_cancel_left hd
    exact string_data_inj (List.append_cancel_right h2)
  · intro a pr pr' hne he
    apply hne
    have h := summary_hash_file_pre md5 hinj he
    unfold summary_to_hash at h
    have hd := congrArg String.data h
    simp only [my_string_append, List.append_assoc] at hd
    have h2 := List.append_cancel_left (List.append_cancel_left hd)
    exact string_data_inj (List.append_cancel_right h2)
  · intro a pr st hne he
    apply hne
    have h := summary_hash_file_pre md5 hinj he
    unfold summary_to_hash at h
    have hd := congrArg String.data h
    simp only [my_string_append, List.append_assoc] at hd
    have h2 := List.append_cancel_left (List.append_cancel_left
      (List.append_cancel_left hd))
    exact string_data_inj (List.append_cancel_right h2)
  · intro a pr en hne he
    apply hne
    have h := summary_hash_file_pre md5 hinj he
    unfold summary_to_hash at h
    have hd := congrArg String.data h
    simp only [my_string_append, List.append_assoc] at hd
    have h2 := List.append_cancel_left (List.append_cancel_left
      (List.append_cancel_left (List.append_cancel_left hd)))
    exact string_data_inj h2
  · intro a pr m tp k
    rfl

/-- Witness for C1 amended: the url and start-offset parts at concrete
inputs, with the identity as the (injective) hash. -/
theorem C1_amended_witness :
    url_hash id "http://a" ≠ url_hash id "http://b" ∧
    transcription_fname 0 0 "m.bin" ≠ transcription_fname 1 0 "m.bin" :=
  ⟨(C1_amended_key_derivation id (fun _ _ h => h)).1 "http://a" "http://b"
      (by decide),
   (C1_amended_key_derivation id (fun _ _ h => h)).2.1 0 1 0 "m.bin"
      (by decide)⟩

/-- Claim C3 counterexample: `_save_to_cache` publishes the payload by a
direct create-then-write at the final cache path `cache/K/audio.mp3` (no
temporary name, no atomic rename), and the state after the create step
alone — a write interrupted part-way — has an exists-visible,
read-visible entry under that key whose content is not the payload. -/
theorem C3_counterexample :
    AudioSource.save_to_cache
        { url := "u", cache_dir := some "cache/K", tmpname := some "/tmp/t0",
          is_open := true }
        { files := [("/tmp/t0", "NETBYTES")], dirs := [] } =
      writeWhole (fsMakedirs { files := [("/tmp/t0", "NETBYTES")], dirs := [] }
        "cache/K") "cache/K/audio.mp3" "NETBYTES" ∧
    fsHasPath (openTrunc (fsMakedirs { files := [("/tmp/t0", "NETBYTES")], dirs := [] }
        "cache/K") "cache/K/audio.mp3") "cache/K/audio.mp3" = true ∧
    fsLookup (openTrunc (fsMakedirs { files := [("/tmp/t0", "NETBYTES")], dirs := [] }
        "cache/K") "cache/K/audio.mp3") "cache/K/audio.mp3" = some "" ∧
    some "" ≠ some "NETBYTES" :=
  ⟨rfl, rfl, rfl, by decide⟩

/-- Claim C3 amended: cache writes are not two-phase-published: the
payload is written directly at its final path (the file is created
empty, then the content is written).  A write interrupted between
creation and content write leaves an exists-visible, read-visible empty
entry for the key; only a completed write leaves the payload.
`_save_to_cache` (audiosource.py:78-81) — like the transcription and
summary cache writes — publishes through this create-then-write at the
final name. -/
theorem C3_amended_direct_write (fs : FSys) (p payload : String)
    (hp : payload ≠ "") :
    fsHasPath (openTrunc fs p) p = true ∧
    fsLookup (openTrunc fs p) p = some "" ∧
    (some "" : Option String) ≠ some payload ∧
    fsLookup (writeWhole fs p payload) p = some payload ∧
    (∀ (src : AudioSource) (fs2 : FSys) (cd t : String),
      src.cache_dir = some cd → src.tmpname = some t → src.is_open = true →
      AudioSource.save_to_cache src fs2 =
        writeWhole (fsMakedirs fs2 cd) (pathJoin cd "audio.mp3")
          ((fsLookup fs2 t).getD "")) := by
  refine ⟨?_, ?_, ?_, ?_, ?_⟩
  · simp [fsHasPath, openTrunc, fsLookup_fsWrite_self]
  · exact fsLookup_fsWrite_self fs p ""
  · intro h
    exact hp (Option.some_injective _ h).symm
  · rw [writeWhole, writeAppend, fsLookup_fsWrite_self,
      show fsLookup (openTrunc fs p) p = some "" from fsLookup_fsWrite_self fs p ""]
    rfl
  · intro src fs2 cd t hcd ht hopen
    unfold AudioSource.save_to_cache
    rw [hcd, ht, hopen]
    simp

/-- Witness for C3 amended, at a concrete state and payload. -/
theorem C3_amended_witness :
    fsLookup (writeWhole fs0 "cache/K/audio.mp3" "NETBYTES")
      "cache/K/audio.mp3" = some "NETBYTES" :=
  (C3_amended_direct_write fs0 "cache/K/audio.mp3" "NETBYTES"
    (by decide)).2.2.2.1

/-- The acquisition cache location for an input: `cache_dir/md5(url)/audio.mp3`. -/
def acq_cache_path (md5 : String → String) (root url : String) : String :=
  pathJoin (pathJoin root (url_hash md5 url)) "audio.mp3"

theorem download_ok_shape (C : Collab) (src : AudioSource) (fs : FSys)
    (dest : String) (ev : List PEvent) (fs2 : FSys)
    (h : AudioSource.download C src fs dest = (ev, Except.ok fs2)) :
    ∃ bytes, fs2 = fsWrite fs dest bytes ∧ fetchCount ev = 1 := by
  simp only [AudioSource.download] at h
  split at h
  · split at h
    · split at h
      · injection h with h1 h2
        injection h2 with h3
        exact ⟨_, h3.symm, by subst h1; rfl⟩
      · injection h with h1 h2
        exact Except.noConfusion h2
    · split at h
      · injection h with h1 h2
        injection h2 with h3
        exact ⟨_, h3.symm, by subst h1; rfl⟩
      · injection h with h1 h2
        exact Except.noConfusion h2
  · split at h
    · injection h with h1 h2
      injection h2 with h3
      exact ⟨_, h3.symm, by subst h1; rfl⟩
    · injection h with h1 h2
      exact Except.noConfusion h2

theorem download_no_tr (C : Collab) (src : AudioSource) (fs : FSys)
    (dest : String) :
    ∀ e ∈ (AudioSource.download C src fs dest).1, isTrStageEvent e = false := by
  intro e he
  simp only [AudioSource.download] at he
  split at he
  · split at he
    · split at he <;>
        (simp only [List.mem_singleton] at he; subst he; rfl)
    · split at he <;>
        (simp only [List.mem_singleton] at he; subst he; rfl)
  · split at he
    · simp only [List.mem_singleton] at he; subst he; rfl
    · simp at he

theorem enterMiss_no_tr (C : Collab) (src : AudioSource) (fs : FSys)
    (tmp : String) :
    ∀ e ∈ (AudioSource.enterMiss C src fs tmp).1, isTrStageEvent e = false := by
  intro e he
  simp only [AudioSource.enterMiss] at he
  rcases hdl : AudioSource.download C src (fsWrite fs tmp "") tmp with ⟨ev0, res⟩
  rw [hdl] at he
  have hdl1 := download_no_tr C src (fsWrite fs tmp "") tmp
  rw [hdl] at hdl1
  dsimp only at hdl1
  cases res with
  | error err =>
    dsimp only at he
    exact hdl1 e he
  | ok fs2 =>
    dsimp only at he
    split at he
    · simp only [List.mem_append, List.mem_singleton] at he
      rcases he with he | he
      · exact hdl1 e he
      · subst he; rfl
    · exact hdl1 e he

theorem enter_no_tr (C : Collab) (src0 : AudioSource) (fs : FSys)
    (tmp : String) :
    ∀ e ∈ (AudioSource.enter C src0 fs tmp).1, isTrStageEvent e = false := by
  intro e he
  simp only [AudioSource.enter] at he
  split at he
  · split at he
    · simp only [List.mem_cons, List.mem_singleton] at he
      rcases he with he | he | he
      · subst he; rfl
      · subst he; rfl
      · simp at he
    · dsimp only at he
      simp only [List.mem_cons] at he
      rcases he with he | he
      · subst he; rfl
      · exact enterMiss_no_tr C _ fs tmp e he
  · exact enterMiss_no_tr C _ fs tmp e he

theorem enterMiss_ok_fields (C : Collab) (src : AudioSource) (fs : FSys)
    (tmp : String) (s : AudioSource) (f : FSys)
    (hopen : src.is_open = true)
    (h : (AudioSource.enterMiss C src fs tmp).2 = Except.ok (s, f)) :
    s.is_open = true ∧ s.tmpname = some tmp ∧ s.cache_dir = src.cache_dir := by
  simp only [AudioSource.enterMiss] at h
  rcases hdl : AudioSource.download C src (fsWrite fs tmp "") tmp with ⟨ev0, res⟩
  rw [hdl] at h
  cases res with
  | error err =>
    dsimp only at h
    exact Except.noConfusion h
  | ok fs2 =>
    dsimp only at h
    split at h
    · injection h with h3
      injection h3 with h4 h5
      subst h4
      exact ⟨hopen, rfl, rfl⟩
    · injection h with h3
      injection h3 with h4 h5
      subst h4
      exact ⟨hopen, rfl, rfl⟩

theorem enter_ok_fields (C : Collab) (src0 : AudioSource) (fs : FSys)
    (tmp : String) (s : AudioSource) (f : FSys)
    (h : (AudioSource.enter C src0 fs tmp).2 = Except.ok (s, f)) :
    s.is_open = true := by
  simp only [AudioSource.enter] at h
  split at h
  · split at h
    · dsimp only at h
      injection h with h3
      injection h3 with h4 h5
      subst h4
      rfl
    · dsimp only at h
      exact (enterMiss_ok_fields C _ fs tmp s f rfl h).1
  · exact (enterMiss_ok_fields C _ fs tmp s f rfl h).1

/-- Claim C4 counterexample: on a remote input with an empty cache and
the reversed range start "00:01:00" / end "00:00:30", the pipeline of
get-text.py performs the acquisition cache check, the network download
and the acquisition cache write before the range validation error is
raised — so cache and network access do occur before the `ValidationError`. -/
theorem C4_counterexample :
    getTextMain (fun s => s) collabA "http://host/a.mp3" "cache"
        "./models/small.en.bin" (some "00:01:00") (some "00:00:30") fs0
        "/tmp/t0" =
      ([PEvent.aqCacheCheck, PEvent.download "http://host/a.mp3",
        PEvent.aqCacheWrite], Except.error Err.rangeError) ∧
    PEvent.download "http://host/a.mp3" ∈
      [PEvent.aqCacheCheck, PEvent.download "http://host/a.mp3",
       PEvent.aqCacheWrite] ∧
    PEvent.aqCacheWrite ∈
      [PEvent.aqCacheCheck, PEvent.download "http://host/a.mp3",
       PEvent.aqCacheWrite] :=
  ⟨rfl, by decide, by decide⟩

/-- Claim C4 amended: a reversed range makes the get-text pipeline raise
the range ValidationError before any transcription-stage work — no
transcription cache read or write and no whisper invocation occur — but
only after the acquisition stage has completed, so the run's trace is
exactly the acquisition trace (which may contain downloads and
acquisition cache accesses). -/
theorem C4_amended_range_validation (md5 : String → String) (C : Collab)
    (input cacheDir modelPath : String) (startArg endArg : Option String)
    (fs : FSys) (tmp : String) (ev1 : List PEvent) (src : AudioSource)
    (fs1 : FSys)
    (h1 : AudioSource.enter C (AudioSource.init md5 input (some cacheDir)) fs
      tmp = (ev1, Except.ok (src, fs1)))
    (h2 : rangeMillis (startArg, endArg) = Except.error Err.rangeError) :
    getTextMain md5 C input cacheDir modelPath startArg endArg fs tmp =
      (ev1, Except.error Err.rangeError) ∧
    (∀ e ∈ ev1, isTrStageEvent e = false) := by
  constructor
  · have hopen : src.is_open = true := by
      apply enter_ok_fields C (AudioSource.init md5 input (some cacheDir)) fs
        tmp src fs1
      rw [h1]
    simp only [getTextMain]
    rw [h1]
    dsimp only
    simp only [transcribe]
    rw [hopen, h2]
    simp
  · intro e he
    have hn := enter_no_tr C (AudioSource.init md5 input (some cacheDir)) fs tmp
    rw [h1] at hn
    exact hn e he

/-- Witness for C4 amended, at the counterexample's concrete input. -/
theorem C4_witness :
    getTextMain (fun s => s) collabA "http://host/a.mp3" "cache"
        "./models/small.fr.bin" (some "00:01:00") (some "00:00:30") fs0
        "/tmp/t0" =
      ([PEvent.aqCacheCheck, PEvent.download "http://host/a.mp3",
        PEvent.aqCacheWrite], Except.error Err.rangeError) ∧
    (∀ e ∈ [PEvent.aqCacheCheck, PEvent.download "http://host/a.mp3",
        PEvent.aqCacheWrite], isTrStageEvent e = false) :=
  C4_amended_range_validation (fun s => s) collabA "http://host/a.mp3" "cache"
    "./models/small.fr.bin" (some "00:01:00") (some "00:00:30") fs0 "/tmp/t0"
    [PEvent.aqCacheCheck, PEvent.download "http://host/a.mp3",
     PEvent.aqCacheWrite]
    { url := "http://host/a.mp3",
      cache_dir := some "cache/http://host/a.mp3",
      tmpname := some "/tmp/t0", is_open := true }
    { files := [("cache/http://host/a.mp3/audio.mp3", "NETBYTES"),
                ("cache/http://host/a.mp3/audio.mp3", ""),
                ("/tmp/t0", "NETBYTES"), ("/tmp/t0", "")],
      dirs := ["cache/http://host/a.mp3"] }
    rfl rfl

theorem enterMiss_ok_shape (C : Collab) (src : AudioSource) (fs : FSys)
    (tmp cd : String) (evM : List PEvent) (s1 : AudioSource) (fs1 : FSys)
    (hcd : src.cache_dir = some cd)
    (hopen : src.is_open = true)
    (hm : AudioSource.enterMiss C src fs tmp = (evM, Except.ok (s1, fs1))) :
    ∃ bytes ev0,
      AudioSource.download C src (fsWrite fs tmp "") tmp =
        (ev0, Except.ok (fsWrite (fsWrite fs tmp "") tmp bytes)) ∧
      s1 = { url := src.url, cache_dir := some cd, tmpname := some tmp,
             is_open := true } ∧
      evM = ev0 ++ [PEvent.aqCacheWrite] ∧
      fetchCount ev0 = 1 ∧
      fs1 = writeWhole (fsMakedirs (fsWrite (fsWrite fs tmp "") tmp bytes) cd)
              (pathJoin cd "audio.mp3") bytes := by
  simp only [AudioSource.enterMiss] at hm
  rcases hdl : AudioSource.download C src (fsWrite fs tmp "") tmp with ⟨ev0, res0⟩
  rw [hdl] at hm
  cases res0 with
  | error err =>
    dsimp only at hm
    injection hm with hev hres
    exact Except.noConfusion hres
  | ok fs2 =>
    dsimp only at hm
    rw [hcd] at hm
    dsimp only at hm
    injection hm with hev hres
    injection hres with hok
    injection hok with hs hf
    obtain ⟨bytes, hfs2, hfc⟩ :=
      download_ok_shape C src (fsWrite fs tmp "") tmp ev0 fs2 hdl
    refine ⟨bytes, ev0, ?_, ?_, hev.symm, hfc, ?_⟩
    · rw [hfs2]
    · rw [← hs, hopen]
    · rw [← hf]
      simp only [AudioSource.save_to_cache]
      rw [hopen]
      rw [hfs2, fsLookup_fsWrite_self]
      rfl

theorem enter_miss_ok (md5 : String → String) (C : Collab)
    (url root tmp : String) (fs : FSys) (ev1 : List PEvent)
    (s1 : AudioSource) (fs1 : FSys)
    (hroot : root ≠ "")
    (hmiss : fsLookup fs (acq_cache_path md5 root url) = none)
    (h1 : AudioSource.enter C (AudioSource.init md5 url (some root)) fs tmp =
      (ev1, Except.ok (s1, fs1))) :
    ∃ bytes ev0,
      AudioSource.download C
        { url := url, cache_dir := some (pathJoin root (url_hash md5 url)),
          tmpname := none, is_open := true } (fsWrite fs tmp "") tmp =
        (ev0, Except.ok (fsWrite (fsWrite fs tmp "") tmp bytes)) ∧
      s1 = { url := url, cache_dir := some (pathJoin root (url_hash md5 url)),
             tmpname := some tmp, is_open := true } ∧
      ev1 = PEvent.aqCacheCheck :: (ev0 ++ [PEvent.aqCacheWrite]) ∧
      fetchCount ev0 = 1 ∧
      fs1 = writeWhole
              (fsMakedirs (fsWrite (fsWrite fs tmp "") tmp bytes)
                (pathJoin root (url_hash md5 url)))
              (acq_cache_path md5 root url) bytes := by
  have hcd : (AudioSource.init md5 url (some root)).cache_dir =
      some (pathJoin root (url_hash md5 url)) := by
    simp [AudioSource.init, pyTruthy, hroot]
  simp only [AudioSource.enter] at h1
  rw [hcd] at h1
  dsimp only at h1
  have hmiss2 : fsLookup fs
      (pathJoin (pathJoin root (url_hash md5 url)) "audio.mp3") = none := hmiss
  rw [hmiss2] at h1
  simp only [Option.isSome_none, Bool.false_eq_true, if_false] at h1
  injection h1 with hev hres
  have hm : AudioSource.enterMiss C
      { url := (AudioSource.init md5 url (some root)).url,
        cache_dir := some (pathJoin root (url_hash md5 url)),
        tmpname := (AudioSource.init md5 url (some root)).tmpname,
        is_open := true } fs tmp =
      ((AudioSource.enterMiss C
        { url := (AudioSource.init md5 url (some root)).url,
          cache_dir := some (pathJoin root (url_hash md5 url)),
          tmpname := (AudioSource.init md5 url (some root)).tmpname,
          is_open := true } fs tmp).1, Except.ok (s1, fs1)) := by
    rw [← hres]
  obtain ⟨bytes, ev0, hdl, hs1, hevM, hfc, hfs1⟩ :=
    enterMiss_ok_shape C _ fs tmp (pathJoin root (url_hash md5 url)) _ s1 fs1
      rfl rfl hm
  refine ⟨bytes, ev0, hdl, hs1, ?_, hfc, hfs1⟩
  rw [← hev, hevM]

theorem enter_hit (C : Collab) (src0 : AudioSource) (fs : FSys)
    (tmp cd b : String)
    (hcd : src0.cache_dir = some cd)
    (hhit : fsLookup fs (pathJoin cd "audio.mp3") = some b) :
    AudioSource.enter C src0 fs tmp =
      ([PEvent.aqCacheCheck, PEvent.aqCacheRead],
       Except.ok ({ url := src0.url, cache_dir := some cd,
                    tmpname := some (pathJoin cd "audio.mp3"),
                    is_open := true }, fs)) := by
  simp only [AudioSource.enter]
  rw [hcd]
  dsimp only
  rw [hhit]
  simp

/-- Claim C5: with caching enabled and a cold cache, a first acquisition
run performs the expensive fetch exactly once and populates the cache; a
second run on the resulting state is a pure cache hit — its trace is the
cache check and read only, with no fetch/extraction/copy collaborator
invocation — and the artifact it yields is byte-identical to the first
run's artifact. -/
theorem C5_acquisition_idempotent (md5 : String → String) (C : Collab)
    (url root tmp tmp2 : String) (fs : FSys) (ev1 : List PEvent)
    (s1 : AudioSource) (fs1 : FSys)
    (hroot : root ≠ "")
    (hmiss : fsLookup fs (acq_cache_path md5 root url) = none)
    (htmp : tmp ≠ acq_cache_path md5 root url)
    (h1 : AudioSource.enter C (AudioSource.init md5 url (some root)) fs tmp =
      (ev1, Except.ok (s1, fs1))) :
    fetchCount ev1 = 1 ∧
    AudioSource.enter C (AudioSource.init md5 url (some root)) fs1 tmp2 =
      ([PEvent.aqCacheCheck, PEvent.aqCacheRead],
       Except.ok ({ url := url,
                    cache_dir := some (pathJoin root (url_hash md5 url)),
                    tmpname := some (acq_cache_path md5 root url),
                    is_open := true }, fs1)) ∧
    fetchCount [PEvent.aqCacheCheck, PEvent.aqCacheRead] = 0 ∧
    s1.get_audio_path = some tmp ∧
    fsLookup fs1 (acq_cache_path md5 root url) = fsLookup fs1 tmp ∧
    (fsLookup fs1 tmp).isSome = true := by
  obtain ⟨bytes, ev0, hdl, hs1, hev, hfc, hfs1⟩ :=
    enter_miss_ok md5 C url root tmp fs ev1 s1 fs1 hroot hmiss h1
  have hcache : fsLookup fs1 (acq_cache_path md5 root url) = some bytes := by
    rw [hfs1]; exact fsLookup_writeWhole_self _ _ _
  have htmpv : fsLookup fs1 tmp = some bytes := by
    rw [hfs1, fsLookup_writeWhole_ne _ _ _ _ htmp, fsLookup_fsMakedirs,
      fsLookup_fsWrite_self]
  refine ⟨?_, ?_, rfl, ?_, ?_, ?_⟩
  · rw [hev]
    simp only [fetchCount, List.countP_cons, List.countP_append] at hfc ⊢
    simpa using hfc
  · exact enter_hit C _ fs1 tmp2 (pathJoin root (url_hash md5 url)) bytes
      (by simp [AudioSource.init, pyTruthy, hroot]) hcache
  · rw [hs1]; rfl
  · rw [hcache, htmpv]
  · rw [htmpv]; rfl

/-- Witness for C5: a remote url fetched once, then served from cache. -/
theorem C5_witness :
    fetchCount [PEvent.aqCacheCheck, PEvent.download "http://host/a.mp3",
      PEvent.aqCacheWrite] = 1 ∧
    AudioSource.enter collabA
      (AudioSource.init (fun s => s) "http://host/a.mp3" (some "cache"))
      { files := [("cache/http://host/a.mp3/audio.mp3", "NETBYTES"),
                  ("cache/http://host/a.mp3/audio.mp3", ""),
                  ("/tmp/t0", "NETBYTES"), ("/tmp/t0", "")],
        dirs := ["cache/http://host/a.mp3"] } "/tmp/t1" =
      ([PEvent.aqCacheCheck, PEvent.aqCacheRead],
       Except.ok ({ url := "http://host/a.mp3",
                    cache_dir := some (pathJoin "cache"
                      (url_hash (fun s => s) "http://host/a.mp3")),
                    tmpname := some (acq_cache_path (fun s => s) "cache"
                      "http://host/a.mp3"),
                    is_open := true },
         { files := [("cache/http://host/a.mp3/audio.mp3", "NETBYTES"),
                     ("cache/http://host/a.mp3/audio.mp3", ""),
                     ("/tmp/t0", "NETBYTES"), ("/tmp/t0", "")],
           dirs := ["cache/http://host/a.mp3"] })) ∧
    fetchCount [PEvent.aqCacheCheck, PEvent.aqCacheRead] = 0 ∧
    AudioSource.get_audio_path
      { url := "http://host/a.mp3",
        cache_dir := some "cache/http://host/a.mp3",
        tmpname := some "/tmp/t0", is_open := true } = some "/tmp/t0" ∧
    fsLookup
      { files := [("cache/http://host/a.mp3/audio.mp3", "NETBYTES"),
                  ("cache/http://host/a.mp3/audio.mp3", ""),
                  ("/tmp/t0", "NETBYTES"), ("/tmp/t0", "")],
        dirs := ["cache/http://host/a.mp3"] }
      (acq_cache_path (fun s => s) "cache" "http://host/a.mp3") =
    fsLookup
      { files := [("cache/http://host/a.mp3/audio.mp3", "NETBYTES"),
                  ("cache/http://host/a.mp3/audio.mp3", ""),
                  ("/tmp/t0", "NETBYTES"), ("/tmp/t0", "")],
        dirs := ["cache/http://host/a.mp3"] } "/tmp/t0" ∧
    (fsLookup
      { files := [("cache/http://host/a.mp3/audio.mp3", "NETBYTES"),
                  ("cache/http://host/a.mp3/audio.mp3", ""),
                  ("/tmp/t0", "NETBYTES"), ("/tmp/t0", "")],
        dirs := ["cache/http://host/a.mp3"] } "/tmp/t0").isSome = true :=
  C5_acquisition_idempotent (fun s => s) collabA "http://host/a.mp3" "cache"
    "/tmp/t0" "/tmp/t1" fs0
    [PEvent.aqCacheCheck, PEvent.download "http://host/a.mp3",
     PEvent.aqCacheWrite]
    { url := "http://host/a.mp3", cache_dir := some "cache/http://host/a.mp3",
      tmpname := some "/tmp/t0", is_open := true }
    { files := [("cache/http://host/a.mp3/audio.mp3", "NETBYTES"),
                ("cache/http://host/a.mp3/audio.mp3", ""),
                ("/tmp/t0", "NETBYTES"), ("/tmp/t0", "")],
      dirs := ["cache/http://host/a.mp3"] }
    (by decide) rfl (by decide) rfl

theorem fsWrite_content_inj {fs : FSys} {p x y : String}
    (h : fsWrite fs p x = fsWrite fs p y) : x = y := by
  simp only [fsWrite] at h
  injection h with h1 h2
  injection h1 with h3 h4
  injection h3 with h5 h6

/-- Claim C6 counterexample: a first (cache-miss) run on a local file with
caching enabled copies the file into the cache, but the artifact path
handed downstream is the temporary copy `/tmp/t0`, not the cached copy
`cache/song.wav/audio.mp3` — the cached copy is used only on later runs. -/
theorem C6_counterexample :
    AudioSource.enter collabA
      (AudioSource.init (fun s => s) "song.wav" (some "cache"))
      { files := [("song.wav", "WAVBYTES")], dirs := [] } "/tmp/t0" =
      ([PEvent.aqCacheCheck, PEvent.copyLocal "song.wav", PEvent.aqCacheWrite],
       Except.ok ({ url := "song.wav", cache_dir := some "cache/song.wav",
                    tmpname := some "/tmp/t0", is_open := true },
         { files := [("cache/song.wav/audio.mp3", "WAVBYTES"),
                     ("cache/song.wav/audio.mp3", ""),
                     ("/tmp/t0", "WAVBYTES"), ("/tmp/t0", ""),
                     ("song.wav", "WAVBYTES")],
           dirs := ["cache/song.wav"] })) ∧
    AudioSource.get_audio_path
      { url := "song.wav", cache_dir := some "cache/song.wav",
        tmpname := some "/tmp/t0", is_open := true } = some "/tmp/t0" ∧
    fsLookup
      { files := [("cache/song.wav/audio.mp3", "WAVBYTES"),
                  ("cache/song.wav/audio.mp3", ""),
                  ("/tmp/t0", "WAVBYTES"), ("/tmp/t0", ""),
                  ("song.wav", "WAVBYTES")],
        dirs := ["cache/song.wav"] } "cache/song.wav/audio.mp3" =
      some "WAVBYTES" ∧
    ("/tmp/t0" : String) ≠ "cache/song.wav/audio.mp3" ∧
    ("/tmp/t0" : String) ≠ "song.wav" :=
  ⟨rfl, rfl, rfl, by decide, by decide⟩

/-- Claim C6 amended: with caching enabled, a local-file input is copied
into the cache under the acquisition key; on a cache-miss (first) run the
artifact path handed downstream is the fresh temporary copy — never the
original file's path, but also not the cached copy — while on a cache-hit
run the cached copy's path is the artifact. -/
theorem C6_amended_local_artifact (md5 : String → String) (C : Collab) :
    (∀ (input root tmp content : String) (fs : FSys) (ev1 : List PEvent)
       (s1 : AudioSource) (fs1 : FSys),
      root ≠ "" → is_url input = false → fsLookup fs input = some content →
      fsLookup fs (acq_cache_path md5 root input) = none →
      tmp ≠ input → tmp ≠ acq_cache_path md5 root input →
      AudioSource.enter C (AudioSource.init md5 input (some root)) fs tmp =
        (ev1, Except.ok (s1, fs1)) →
      s1.get_audio_path = some tmp ∧
      s1.get_audio_path ≠ some input ∧
      s1.get_audio_path ≠ some (acq_cache_path md5 root input) ∧
      fsLookup fs1 (acq_cache_path md5 root input) = some content ∧
      fsLookup fs1 tmp = some content) ∧
    (∀ (input root tmp b : String) (fs : FSys),
      root ≠ "" →
      fsLookup fs (acq_cache_path md5 root input) = some b →
      AudioSource.enter C (AudioSource.init md5 input (some root)) fs tmp =
        ([PEvent.aqCacheCheck, PEvent.aqCacheRead],
         Except.ok ({ url := input,
                      cache_dir := some (pathJoin root (url_hash md5 input)),
                      tmpname := some (acq_cache_path md5 root input),
                      is_open := true }, fs)) ∧
      AudioSource.get_audio_path
        { url := input, cache_dir := some (pathJoin root (url_hash md5 input)),
          tmpname := some (acq_cache_path md5 root input), is_open := true } =
        some (acq_cache_path md5 root input)) := by
  constructor
  · intro input root tmp content fs ev1 s1 fs1 hroot hurl hloc hmiss htmpi
      htmpc h1
    obtain ⟨bytes, ev0, hdl, hs1, hev, hfc, hfs1⟩ :=
      enter_miss_ok md5 C input root tmp fs ev1 s1 fs1 hroot hmiss h1
    have hlook : fsLookup (fsWrite fs tmp "") input = some content := by
      rw [fsLookup_fsWrite_ne _ _ _ _ (Ne.symm htmpi)]
      exact hloc
    simp only [AudioSource.download] at hdl
    rw [hurl] at hdl
    simp only [Bool.false_eq_true, if_false, hlook] at hdl
    injection hdl with hev0 hres
    injection hres with hfs2
    have hbytes : bytes = content := by
      have := fsWrite_content_inj hfs2
      simp at this
      exact this.symm
    subst hbytes
    refine ⟨?_, ?_, ?_, ?_, ?_⟩
    · rw [hs1]; rfl
    · rw [hs1]
      simp only [AudioSource.get_audio_path, Option.some.injEq]
      simp [htmpi]
    · rw [hs1]
      simp only [AudioSource.get_audio_path, Option.some.injEq]
      simp [htmpc]
    · rw [hfs1]
      exact fsLookup_writeWhole_self _ _ _
    · rw [hfs1, fsLookup_writeWhole_ne _ _ _ _ htmpc, fsLookup_fsMakedirs,
        fsLookup_fsWrite_self]
  · intro input root tmp b fs hroot hhit
    have hcd : (AudioSource.init md5 input (some root)).cache_dir =
        some (pathJoin root (url_hash md5 input)) := by
      simp [AudioSource.init, pyTruthy, hroot]
    exact ⟨enter_hit C _ fs tmp (pathJoin root (url_hash md5 input)) b hcd hhit,
      rfl⟩

/-- Witness for C6 amended: the miss part at the concrete local-file run. -/
theorem C6_amended_witness :
    AudioSource.get_audio_path
      { url := "song.wav", cache_dir := some "cache/song.wav",
        tmpname := some "/tmp/t0", is_open := true } = some "/tmp/t0" ∧
    AudioSource.get_audio_path
      { url := "song.wav", cache_dir := some "cache/song.wav",
        tmpname := some "/tmp/t0", is_open := true } ≠ some "song.wav" ∧
    AudioSource.get_audio_path
      { url := "song.wav", cache_dir := some "cache/song.wav",
        tmpname := some "/tmp/t0", is_open := true } ≠
      some (acq_cache_path (fun s => s) "cache" "song.wav") ∧
    fsLookup
      { files := [("cache/song.wav/audio.mp3", "WAVBYTES"),
                  ("cache/song.wav/audio.mp3", ""),
                  ("/tmp/t0", "WAVBYTES"), ("/tmp/t0", ""),
                  ("song.wav", "WAVBYTES")],
        dirs := ["cache/song.wav"] }
      (acq_cache_path (fun s => s) "cache" "song.wav") = some "WAVBYTES" ∧
    fsLookup
      { files := [("cache/song.wav/audio.mp3", "WAVBYTES"),
                  ("cache/song.wav/audio.mp3", ""),
                  ("/tmp/t0", "WAVBYTES"), ("/tmp/t0", ""),
                  ("song.wav", "WAVBYTES")],
        dirs := ["cache/song.wav"] } "/tmp/t0" = some "WAVBYTES" :=
  (C6_amended_local_artifact (fun s => s) collabA).1 "song.wav" "cache"
    "/tmp/t0" "WAVBYTES" { files := [("song.wav", "WAVBYTES")], dirs := [] }
    [PEvent.aqCacheCheck, PEvent.copyLocal "song.wav", PEvent.aqCacheWrite]
    { url := "song.wav", cache_dir := some "cache/song.wav",
      tmpname := some "/tmp/t0", is_open := true }
    { files := [("cache/song.wav/audio.mp3", "WAVBYTES"),
                ("cache/song.wav/audio.mp3", ""),
                ("/tmp/t0", "WAVBYTES"), ("/tmp/t0", ""),
                ("song.wav", "WAVBYTES")],
      dirs := ["cache/song.wav"] }
    (by decide) (by decide) rfl rfl (by decide) (by decide) rfl

/-- Claim C7 counterexample: after a cache-miss acquisition run on a
remote url, closing the AudioSource scope (`__exit__`, which only calls
`close()` on the `delete=False` temporary file) leaves the filesystem
unchanged: the temporary download file `/tmp/t0` still holds the
downloaded bytes after the scope has closed. -/
theorem C7_counterexample :
    AudioSource.enter collabA
      (AudioSource.init (fun s => s) "http://host/a.mp3" (some "cache")) fs0
      "/tmp/t0" =
      ([PEvent.aqCacheCheck, PEvent.download "http://host/a.mp3",
        PEvent.aqCacheWrite],
       Except.ok ({ url := "http://host/a.mp3",
                    cache_dir := some "cache/http://host/a.mp3",
                    tmpname := some "/tmp/t0", is_open := true },
         { files := [("cache/http://host/a.mp3/audio.mp3", "NETBYTES"),
                     ("cache/http://host/a.mp3/audio.mp3", ""),
                     ("/tmp/t0", "NETBYTES"), ("/tmp/t0", "")],
           dirs := ["cache/http://host/a.mp3"] })) ∧
    AudioSource.exitAS
      { url := "http://host/a.mp3", cache_dir := some "cache/http://host/a.mp3",
        tmpname := some "/tmp/t0", is_open := true }
      { files := [("cache/http://host/a.mp3/audio.mp3", "NETBYTES"),
                  ("cache/http://host/a.mp3/audio.mp3", ""),
                  ("/tmp/t0", "NETBYTES"), ("/tmp/t0", "")],
        dirs := ["cache/http://host/a.mp3"] } =
      ({ url := "http://host/a.mp3", cache_dir := some "cache/http://host/a.mp3",
         tmpname := none, is_open := false },
       { files := [("cache/http://host/a.mp3/audio.mp3", "NETBYTES"),
                   ("cache/http://host/a.mp3/audio.mp3", ""),
                   ("/tmp/t0", "NETBYTES"), ("/tmp/t0", "")],
         dirs := ["cache/http://host/a.mp3"] }) ∧
    fsLookup
      { files := [("cache/http://host/a.mp3/audio.mp3", "NETBYTES"),
                  ("cache/http://host/a.mp3/audio.mp3", ""),
                  ("/tmp/t0", "NETBYTES"), ("/tmp/t0", "")],
        dirs := ["cache/http://host/a.mp3"] } "/tmp/t0" = some "NETBYTES" :=
  ⟨rfl, rfl, rfl⟩

/-- Claim C7 amended: `__exit__` never deletes anything — it leaves the
filesystem exactly as it was — and after a successful cache-miss run the
temporary download file created by `__enter__` (with `delete=False`)
remains on disk, still holding the downloaded bytes, once the scope has
closed.  (Only the yt-dlp extraction's temporary directory, managed by
its own `with TemporaryDirectory()`, is discarded.) -/
theorem C7_amended_temp_file_remains (md5 : String → String) (C : Collab)
    (url root tmp : String) (fs : FSys) (ev1 : List PEvent)
    (s1 : AudioSource) (fs1 : FSys)
    (hroot : root ≠ "")
    (hmiss : fsLookup fs (acq_cache_path md5 root url) = none)
    (htmp : tmp ≠ acq_cache_path md5 root url)
    (h1 : AudioSource.enter C (AudioSource.init md5 url (some root)) fs tmp =
      (ev1, Except.ok (s1, fs1))) :
    (∀ (src : AudioSource) (f : FSys), (AudioSource.exitAS src f).2 = f) ∧
    s1.tmpname = some tmp ∧
    (AudioSource.exitAS s1 fs1).1.tmpname = none ∧
    (AudioSource.exitAS s1 fs1).1.is_open = false ∧
    fsLookup ((AudioSource.exitAS s1 fs1).2) tmp ≠ none := by
  obtain ⟨bytes, ev0, hdl, hs1, hev, hfc, hfs1⟩ :=
    enter_miss_ok md5 C url root tmp fs ev1 s1 fs1 hroot hmiss h1
  have htmpv : fsLookup fs1 tmp = some bytes := by
    rw [hfs1, fsLookup_writeWhole_ne _ _ _ _ htmp, fsLookup_fsMakedirs,
      fsLookup_fsWrite_self]
  refine ⟨fun src f => rfl, by rw [hs1], rfl, rfl, ?_⟩
  simp only [AudioSource.exitAS, htmpv]
  exact Option.noConfusion

/-- Witness for C7 amended, at the concrete remote-url run. -/
theorem C7_amended_witness :
    (∀ (src : AudioSource) (f : FSys), (AudioSource.exitAS src f).2 = f) ∧
    AudioSource.tmpname
      { url := "http://host/a.mp3", cache_dir := some "cache/http://host/a.mp3",
        tmpname := some "/tmp/t0", is_open := true } = some "/tmp/t0" ∧
    (AudioSource.exitAS
      { url := "http://host/a.mp3", cache_dir := some "cache/http://host/a.mp3",
        tmpname := some "/tmp/t0", is_open := true }
      { files := [("cache/http://host/a.mp3/audio.mp3", "NETBYTES"),
                  ("cache/http://host/a.mp3/audio.mp3", ""),
                  ("/tmp/t0", "NETBYTES"), ("/tmp/t0", "")],
        dirs := ["cache/http://host/a.mp3"] }).1.tmpname = none ∧
    (AudioSource.exitAS
      { url := "http://host/a.mp3", cache_dir := some "cache/http://host/a.mp3",
        tmpname := some "/tmp/t0", is_open := true }
      { files := [("cache/http://host/a.mp3/audio.mp3", "NETBYTES"),
                  ("cache/http://host/a.mp3/audio.mp3", ""),
                  ("/tmp/t0", "NETBYTES"), ("/tmp/t0", "")],
        dirs := ["cache/http://host/a.mp3"] }).1.is_open = false ∧
    fsLookup
      ((AudioSource.exitAS
        { url := "http://host/a.mp3", cache_dir := some "cache/http://host/a.mp3",
          tmpname := some "/tmp/t0", is_open := true }
        { files := [("cache/http://host/a.mp3/audio.mp3", "NETBYTES"),
                    ("cache/http://host/a.mp3/audio.mp3", ""),
                    ("/tmp/t0", "NETBYTES"), ("/tmp/t0", "")],
          dirs := ["cache/http://host/a.mp3"] }).2) "/tmp/t0" ≠ none :=
  C7_amended_temp_file_remains (fun s => s) collabA "http://host/a.mp3" "cache"
    "/tmp/t0" fs0
    [PEvent.aqCacheCheck, PEvent.download "http://host/a.mp3",
     PEvent.aqCacheWrite]
    { url := "http://host/a.mp3", cache_dir := some "cache/http://host/a.mp3",
      tmpname := some "/tmp/t0", is_open := true }
    { files := [("cache/http://host/a.mp3/audio.mp3", "NETBYTES"),
                ("cache/http://host/a.mp3/audio.mp3", ""),
                ("/tmp/t0", "NETBYTES"), ("/tmp/t0", "")],
      dirs := ["cache/http://host/a.mp3"] }
    (by decide) rfl (by decide) rfl

/-- Claim C10: when get-summary.py is given a `.txt` input together with
a truthy cache directory that exists on disk, the run computes the
summary (the summarization collaborator is called) and then raises the
unhandled NameError on `hash_path` — that local variable is never
assigned on the text-input path — so no summary is written to the cache
and none is output. -/
theorem C10_txt_nameError (md5 : String → String) (C : Collab)
    (envKey : Option String) (a : SumArgs) (fs : FSys) (tmp text : String)
    (hin : myEndsWith a.input ".txt" = true)
    (hread : fsLookup fs a.input = some text)
    (hcd : a.cache_dir ≠ "")
    (hcde : fsHasPath fs a.cache_dir = true)
    (hkey : pyTruthy
      (if pyTruthy a.openai_api_key then a.openai_api_key else envKey) = true) :
    getSummaryMain md5 C envKey a fs tmp =
      ([PEvent.summarizeCall], Except.error (Err.nameError "hash_path")) ∧
    PEvent.summarizeCall ∈ [PEvent.summarizeCall] ∧
    PEvent.sumCacheWrite ∉ [PEvent.summarizeCall] ∧
    PEvent.output ∉ [PEvent.summarizeCall] := by
  refine ⟨?_, by decide, by decide, by decide⟩
  simp only [getSummaryMain]
  rw [hin, hread]
  simp only [if_true]
  simp only [summaryTail]
  rw [hkey]
  simp only [if_true, hcd, hcde]
  simp
  exact hcd

/-- Witness for C10: a concrete .txt run with an existing cache dir. -/
theorem C10_witness :
    getSummaryMain (fun s => s) collabA (some "ENVKEY")
      { input := "notes.txt", model_path := "./models/small.en.bin",
        startArg := none, endArg := none, openai_api_key := some "KEY",
        prompt := "Summarize the following text: {text}", max_tokens := 999,
        temperature := "0.7", cache_dir := "cache",
        openai_model := "gpt-4-0125-preview" }
      { files := [("notes.txt", "HELLO")], dirs := ["cache"] } "/tmp/t0" =
      ([PEvent.summarizeCall], Except.error (Err.nameError "hash_path")) ∧
    PEvent.summarizeCall ∈ [PEvent.summarizeCall] ∧
    PEvent.sumCacheWrite ∉ [PEvent.summarizeCall] ∧
    PEvent.output ∉ [PEvent.summarizeCall] :=
  C10_txt_nameError (fun s => s) collabA (some "ENVKEY")
    { input := "notes.txt", model_path := "./models/small.en.bin",
      startArg := none, endArg := none, openai_api_key := some "KEY",
      prompt := "Summarize the following text: {text}", max_tokens := 999,
      temperature := "0.7", cache_dir := "cache",
      openai_model := "gpt-4-0125-preview" }
    { files := [("notes.txt", "HELLO")], dirs := ["cache"] } "/tmp/t0" "HELLO"
    (by decide) rfl (by decide) (by decide) (by decide)
